import Mathlib

/-
  Verification development for the uba-backend session/authentication layer.

  The repository contains two session-management implementations:
  * a React context provider (`AuthProvider` / `loadUser` / `login` / `register`
    / `logout` / `useAuth`) that keeps the token and user in component state,
    mirrors the token into localStorage and into the axios default
    Authorization header via two `useEffect [token]` hooks, and re-fetches the
    profile whenever the token changes;
  * a standalone module (`saveUser` / `getCurrentUser` / `getToken` /
    `isAuthenticated` / `isAdmin` / `loginUser` / `registerUser` / `logout` /
    `fetchUserProfile`) that reads and writes localStorage directly and talks
    to the fetch-based `apiRequest` client.

  The embedding models localStorage cells and the axios default header as
  explicit state fields, network collaborators as explicit `Except` response
  parameters, and each JavaScript operation as a pure function from the
  pre-state (plus the collaborator's response) to the quiescent post-state,
  i.e. the state after the operation and every React effect it triggers have
  run to completion.  JavaScript string-or-null values are `Option String`;
  the code tests them exclusively by truthiness (`if (token)`, `!!getToken()`,
  `token && ...`), under which both `null` and the empty string count as
  absent, so truthiness is modelled explicitly by `truthy`.
-/

/-- The user record `{id, email, credits, is_admin}` shared by both
implementations (interface `User` in part_001 and in auth.ts). -/
structure User where
  id : Int
  email : String
  credits : Int
  is_admin : Bool
deriving DecidableEq

/-- The auth collaborator's success payload `{token, user}` (type
`AuthResponse` in auth.ts / api/auth.ts).  The static type of `token` is
`string`, but the code guards it by truthiness (`if (userData?.token)`), so we
model it as `Option String` with `none` for a missing field. -/
structure AuthResponse where
  token : Option String
  user : User
deriving DecidableEq

/-- JavaScript truthiness of a string-or-null value: `null`/absent and the
empty string are falsy, every other string is truthy. -/
def truthy : Option String → Bool
  | none => false
  | some s => !(s == "")

namespace Api

/-- A failure response body from the HTTP collaborator; the code only ever
reads its `message` field (`error.message`), which may be absent. -/
structure ApiFailure where
  message : Option String
deriving DecidableEq

/-- From `apiRequest` (part_003) and `handleResponse` (services/api.js):
`throw new Error(error.message || 'Something went wrong')`.  An absent or
empty (falsy) `message` falls back to the generic string. -/
def apiErrorMessage (e : ApiFailure) : String :=
  match e.message with
  | some m => if m = "" then "Something went wrong" else m
  | none => "Something went wrong"

/-- From `apiRequest` (part_003): the Authorization header attached to an
outbound request, built from the stored token:
`...(token && { 'Authorization': 'Bearer ' + token })`.  A falsy stored token
yields no header. -/
def apiRequestAuth (storedTok : Option String) : Option String :=
  match storedTok with
  | some t => if t = "" then none else some ("Bearer " ++ t)
  | none => none

end Api

namespace AuthContext

/-- The quiescent state of the `AuthProvider` component (part_001) together
with the ambient state it mutates: component state `token`, `user`, `loading`,
`errorMsg` (the `error` state variable), the axios default Authorization
header `axiosAuth`, and the two localStorage cells `storedToken` (key
`'token'`) and `storedUser` (key `'user'`; part_001 never touches it, it is
tracked to show exactly that). -/
structure PState where
  token : Option String
  user : Option User
  loading : Bool
  errorMsg : Option String
  axiosAuth : Option String
  storedToken : Option String
  storedUser : Option User
deriving DecidableEq

/-- First `useEffect [token]` of `AuthProvider`:
`if (token) { localStorage.setItem('token', token); axios.defaults...Authorization = 'Bearer ' + token }
else { delete axios.defaults...Authorization; localStorage.removeItem('token') }`. -/
def effect1 (s : PState) : PState :=
  match s.token with
  | some t =>
    if t = "" then { s with axiosAuth := none, storedToken := none }
    else { s with axiosAuth := some ("Bearer " ++ t), storedToken := some t }
  | none => { s with axiosAuth := none, storedToken := none }

/-- Second `useEffect [token]` of `AuthProvider`, the `loadUser` profile
refresh.  `r` is the profile collaborator's (`getCurrentUser(token)`) result:
`if (token) { try { setUser(await getCurrentUser(token)) } catch { setToken(null) } } setLoading(false)`.
On failure the code clears only the token; the token change re-triggers
`effect1` (removing the header and the stored token) and a further `loadUser`
run that, with a null token, merely clears `loading`.  Note the catch clause
never clears `user`. -/
def loadUser (s : PState) (r : Except Unit User) : PState :=
  match s.token with
  | some t =>
    if t = "" then { s with loading := false }
    else
      match r with
      | .ok u => { s with user := some u, loading := false }
      | .error _ =>
        let s1 := effect1 { s with token := none }
        { s1 with loading := false }
  | none => { s with loading := false }

/-- Component mount: `useState(localStorage.getItem('token'))` seeds the token
from storage, `user` starts null, `loading` starts true, then both effects run
(in declaration order: `effect1`, then `loadUser` with the profile
collaborator's response `r`). -/
def initMount (storedTok : Option String) (storedU : Option User)
    (r : Except Unit User) : PState :=
  loadUser
    (effect1
      { token := storedTok, user := none, loading := true, errorMsg := none,
        axiosAuth := none, storedToken := storedTok, storedUser := storedU }) r

/-- `handleAuthResponse`: `setToken(response.token); setUser(response.user)`. -/
def handleAuthResponse (s : PState) (resp : AuthResponse) : PState :=
  { s with token := resp.token, user := some resp.user }

/-- The success path shared by `login` and `register`: `setLoading(true);
setError(null); handleAuthResponse(response)` then `finally setLoading(false)`.
If the new token differs from the old one (React compares with `Object.is`),
the two `useEffect [token]` hooks re-run: `effect1` re-syncs the header and
storage and `loadUser` re-fetches the profile with result `r2`. -/
def authSuccess (s : PState) (resp : AuthResponse) (r2 : Except Unit User) :
    PState :=
  let s1 :=
    { handleAuthResponse { s with errorMsg := none } resp with loading := false }
  if resp.token = s.token then s1 else loadUser (effect1 s1) r2

/-- An axios rejection as observed by part_001's catch clauses: the optional
chain `err.response?.data?.message` either reaches a failure body (with its
optional `message`) or breaks off (`none`, e.g. a network error). -/
abbrev AxiosErr : Type := Option Api.ApiFailure

/-- From `login`'s catch clause:
`err.response?.data?.message || 'Login failed'` (JS `||`, so an empty-string
message also falls back). -/
def loginErrorMessage (e : AxiosErr) : String :=
  match e with
  | some d =>
    match d.message with
    | some m => if m = "" then "Login failed" else m
    | none => "Login failed"
  | none => "Login failed"

/-- From `register`'s catch clause:
`err.response?.data?.message || 'Registration failed'`. -/
def registerErrorMessage (e : AxiosErr) : String :=
  match e with
  | some d =>
    match d.message with
    | some m => if m = "" then "Registration failed" else m
    | none => "Registration failed"
  | none => "Registration failed"

/-- `login(email, password)` of `AuthProvider`, given the login collaborator's
result.  Success delegates to `handleAuthResponse` (with effect re-runs);
failure sets the `error` state to the extracted message, leaves everything
else untouched, and re-throws `new Error(errorMessage)` to the caller
(modelled as the `Except.error` component of the returned pair). -/
def login (s : PState) (result : Except AxiosErr AuthResponse)
    (r2 : Except Unit User) : PState × Except String Unit :=
  match result with
  | .ok resp => (authSuccess s resp r2, .ok ())
  | .error e =>
    ({ s with errorMsg := some (loginErrorMessage e), loading := false },
      .error (loginErrorMessage e))

/-- `register(email, password)` of `AuthProvider`: identical to `login` except
for the fallback message. -/
def register (s : PState) (result : Except AxiosErr AuthResponse)
    (r2 : Except Unit User) : PState × Except String Unit :=
  match result with
  | .ok resp => (authSuccess s resp r2, .ok ())
  | .error e =>
    ({ s with errorMsg := some (registerErrorMessage e), loading := false },
      .error (registerErrorMessage e))

/-- `logout` of `AuthProvider`: `setToken(null); setUser(null);
localStorage.removeItem('token')`.  If the token actually changed, the
effects re-run: `effect1` clears the header and storage, and `loadUser` (with
a null token) clears `loading`. -/
def logout (s : PState) : PState :=
  let s1 := { s with token := none, user := none, storedToken := none }
  if s.token = none then s1
  else
    let s2 := effect1 s1
    { s2 with loading := false }

/-- The states reachable from an initial storage content (`st0` under key
`'token'`, `su0` under key `'user'`) by mounting the provider and then
performing any sequence of `login`, `register` and `logout` operations, with
arbitrary collaborator responses. -/
inductive ReachableFrom (st0 : Option String) (su0 : Option User) :
    PState → Prop
  | init (r : Except Unit User) : ReachableFrom st0 su0 (initMount st0 su0 r)
  | login_step {s : PState} (result : Except AxiosErr AuthResponse)
      (r2 : Except Unit User) :
      ReachableFrom st0 su0 s → ReachableFrom st0 su0 (login s result r2).1
  | register_step {s : PState} (result : Except AxiosErr AuthResponse)
      (r2 : Except Unit User) :
      ReachableFrom st0 su0 s → ReachableFrom st0 su0 (register s result r2).1
  | logout_step {s : PState} :
      ReachableFrom st0 su0 s → ReachableFrom st0 su0 (logout s)

/-- The data carried by the React context value (the `AuthContextType`
interface, restricted to its data fields; the function fields close over the
provider and are not part of the observable value). -/
structure AuthContextType where
  user : Option User
  token : Option String
  loading : Bool
  errorMsg : Option String
deriving DecidableEq

/-- `useAuth`: `const context = useContext(AuthContext); if (context === undefined)
throw new Error('useAuth must be used within an AuthProvider'); return context`.
The context is created with `createContext<AuthContextType | undefined>(undefined)`,
so outside any `AuthProvider` the consumed value is the default `undefined`,
modelled as `none`. -/
def useAuth (ctx : Option AuthContextType) : Except String AuthContextType :=
  match ctx with
  | none => .error "useAuth must be used within an AuthProvider"
  | some c => .ok c

end AuthContext

namespace AuthTs

/-- The localStorage cells used by the standalone auth.ts module: key
`'token'` (a string) and key `'user'` (a JSON-serialized user record;
`JSON.parse ∘ JSON.stringify` is the identity on these records, so the cell
is modelled as the record itself). -/
structure Storage where
  token : Option String
  user : Option User
deriving DecidableEq

/-- `saveUser` (auth.ts): `if (userData?.token) { localStorage.setItem('token',
userData.token); localStorage.setItem('user', JSON.stringify(userData.user)) }`.
A falsy token means nothing at all is written. -/
def saveUser (userData : AuthResponse) (st : Storage) : Storage :=
  if truthy userData.token then
    { st with token := userData.token, user := some userData.user }
  else st

/-- `getCurrentUser` (auth.ts): read and parse the `'user'` cell. -/
def getCurrentUser (st : Storage) : Option User := st.user

/-- `getToken` (auth.ts): `localStorage.getItem('token')`. -/
def getToken (st : Storage) : Option String := st.token

/-- `isAuthenticated` (auth.ts): `!!getToken()`. -/
def isAuthenticated (st : Storage) : Bool := truthy (getToken st)

/-- `isAdmin` (auth.ts): `const user = getCurrentUser(); return
user?.is_admin === true`.  The token is not consulted. -/
def isAdmin (st : Storage) : Bool :=
  match getCurrentUser st with
  | some u => u.is_admin
  | none => false

/-- `loginUser` (auth.ts): `const response = await login(email, password);
saveUser(response); return response.user`.  On collaborator failure the
rejection from `apiRequest` propagates and storage is untouched. -/
def loginUser (result : Except Api.ApiFailure AuthResponse) (st : Storage) :
    Storage × Except String User :=
  match result with
  | .ok resp => (saveUser resp st, .ok resp.user)
  | .error e => (st, .error (Api.apiErrorMessage e))

/-- `registerUser` (auth.ts): identical to `loginUser` but via the register
collaborator. -/
def registerUser (result : Except Api.ApiFailure AuthResponse) (st : Storage) :
    Storage × Except String User :=
  match result with
  | .ok resp => (saveUser resp st, .ok resp.user)
  | .error e => (st, .error (Api.apiErrorMessage e))

/-- `logout` (auth.ts): `localStorage.removeItem('token');
localStorage.removeItem('user')`, then navigate to `'/login'` (via the
`navigate` callback when supplied, via `window.location.href` otherwise —
the destination is `'/login'` in both branches). -/
def logout (st : Storage) (hasNav : Bool) : Storage × String :=
  ({ st with token := none, user := none },
    if hasNav then "/login" else "/login")

/-- `fetchUserProfile` (auth.ts): `try { const user = await getUserProfile();
if (user) localStorage.setItem('user', JSON.stringify(user)); return user }
catch { logout(); return null }`.  Any collaborator failure degrades to a
logout (the caught error is not re-thrown). -/
def fetchUserProfile (result : Except Api.ApiFailure User) (st : Storage) :
    Storage × Option User :=
  match result with
  | .ok u => ({ st with user := some u }, some u)
  | .error _ => ((logout st false).1, none)

end AuthTs

/-- Spec-side rendering of the claimed `isAdmin` contract, following the
spec's words: `isAdmin` = token present AND `user.isAdmin` is true (false when
`user` is absent).  Clearly named as the spec's version, to be compared with
the source-derived `AuthTs.isAdmin`. -/
def isAdminSpec (st : AuthTs.Storage) : Bool :=
  truthy st.token &&
    (match st.user with
     | some u => u.is_admin
     | none => false)

/-- Spec-side rendering of the claimed failure-message rule, following the
spec's words: the rejection message is the payload's `message` field when
present, otherwise a generic fallback string.  To be compared with the
source-derived `AuthContext.loginErrorMessage`. -/
def failureMessageSpec (e : AuthContext.AxiosErr) : String :=
  match e with
  | some d =>
    match d.message with
    | some m => m
    | none => "Login failed"
  | none => "Login failed"

/-- The Authorization header value warranted by a given in-memory token: a
bearer header for a truthy token, no header otherwise. -/
def bearerOf : Option String → Option String
  | some t => if t = "" then none else some ("Bearer " ++ t)
  | none => none

/-- The persisted form of a given in-memory token: stored verbatim when
truthy, absent from storage otherwise. -/
def normTok : Option String → Option String
  | some t => if t = "" then none else some t
  | none => none

/-- The side-channel synchronization invariant of the provider: the axios
default header and the persisted token both agree with the in-memory token. -/
def Synced (s : AuthContext.PState) : Prop :=
  s.axiosAuth = bearerOf s.token ∧ s.storedToken = normTok s.token

section Lemmas

open AuthContext

theorem synced_effect1 (s : PState) : Synced (effect1 s) := by
  unfold Synced effect1 bearerOf normTok
  cases ht : s.token with
  | none => simp
  | some t => by_cases h : t = "" <;> simp [h]

theorem synced_loadUser {s : PState} (hs : Synced s) (r : Except Unit User) :
    Synced (loadUser s r) := by
  unfold loadUser
  cases ht : s.token with
  | none => simpa [Synced, ht] using hs
  | some t =>
    by_cases h : t = ""
    · simpa [Synced, ht, h] using hs
    · cases r with
      | ok u => simpa [Synced, ht, h] using hs
      | error e =>
        simp only [ht, h]
        simpa [Synced, h] using synced_effect1 { s with token := none }

theorem synced_authSuccess {s : PState} (hs : Synced s) (resp : AuthResponse)
    (r2 : Except Unit User) : Synced (authSuccess s resp r2) := by
  unfold authSuccess
  by_cases h : resp.token = s.token
  · simpa [Synced, handleAuthResponse, h] using hs
  · simp only [if_neg h]
    exact synced_loadUser (synced_effect1 _) r2

theorem synced_login {s : PState} (hs : Synced s)
    (result : Except AxiosErr AuthResponse) (r2 : Except Unit User) :
    Synced (login s result r2).1 := by
  cases result with
  | ok resp => exact synced_authSuccess hs resp r2
  | error e => simpa [Synced, login] using hs

theorem synced_register {s : PState} (hs : Synced s)
    (result : Except AxiosErr AuthResponse) (r2 : Except Unit User) :
    Synced (register s result r2).1 := by
  cases result with
  | ok resp => exact synced_authSuccess hs resp r2
  | error e => simpa [Synced, register] using hs

theorem synced_logout {s : PState} (hs : Synced s) : Synced (logout s) := by
  unfold logout
  by_cases h : s.token = none
  · have h1 : s.axiosAuth = none := by rw [hs.1, h]; rfl
    simp [Synced, h, bearerOf, normTok, h1]
  · simp only [if_neg h]
    simpa [Synced] using synced_effect1 { s with token := none, user := none, storedToken := none }

theorem synced_initMount (storedTok : Option String) (storedU : Option User)
    (r : Except Unit User) : Synced (initMount storedTok storedU r) :=
  synced_loadUser (synced_effect1 _) r

theorem synced_of_reachable {st0 : Option String} {su0 : Option User}
    {s : PState} (h : ReachableFrom st0 su0 s) : Synced s := by
  induction h with
  | init r => exact synced_initMount st0 su0 r
  | login_step result r2 _ ih => exact synced_login ih result r2
  | register_step result r2 _ ih => exact synced_register ih result r2
  | logout_step _ ih => exact synced_logout ih

theorem storedUser_effect1 (s : PState) :
    (effect1 s).storedUser = s.storedUser := by
  unfold effect1
  cases ht : s.token with
  | none => simp
  | some t => by_cases h : t = "" <;> simp [h]

theorem storedUser_loadUser (s : PState) (r : Except Unit User) :
    (loadUser s r).storedUser = s.storedUser := by
  unfold loadUser
  cases ht : s.token with
  | none => simp
  | some t =>
    by_cases h : t = ""
    · simp [h]
    · cases r with
      | ok u => simp [h]
      | error e => simp [h, storedUser_effect1]

theorem storedUser_authSuccess (s : PState) (resp : AuthResponse)
    (r2 : Except Unit User) :
    (authSuccess s resp r2).storedUser = s.storedUser := by
  unfold authSuccess
  by_cases h : resp.token = s.token
  · simp [h, handleAuthResponse]
  · simp only [if_neg h]
    rw [storedUser_loadUser, storedUser_effect1]
    simp [handleAuthResponse]

theorem storedUser_logout (s : PState) : (logout s).storedUser = s.storedUser := by
  unfold logout
  by_cases h : s.token = none
  · simp [h]
  · simp [h, storedUser_effect1]

theorem storedUser_initMount (storedTok : Option String) (storedU : Option User)
    (r : Except Unit User) : (initMount storedTok storedU r).storedUser = storedU := by
  unfold initMount
  rw [storedUser_loadUser, storedUser_effect1]

theorem storedUser_of_reachable {st0 : Option String} {su0 : Option User}
    {s : PState} (h : ReachableFrom st0 su0 s) : s.storedUser = su0 := by
  induction h with
  | init r => exact storedUser_initMount st0 su0 r
  | login_step result r2 _ ih =>
    cases result with
    | ok resp => rw [login, storedUser_authSuccess]; exact ih
    | error e => simpa [login] using ih
  | register_step result r2 _ ih =>
    cases result with
    | ok resp => rw [register, storedUser_authSuccess]; exact ih
    | error e => simpa [register] using ih
  | logout_step _ ih =>
    rw [storedUser_logout]
    exact ih

end Lemmas

theorem loginErrorMessage_ne_empty (e : AuthContext.AxiosErr) :
    AuthContext.loginErrorMessage e ≠ "" := by
  cases e with
  | none => simp [AuthContext.loginErrorMessage]
  | some d =>
    cases hm : d.message with
    | none => simp [AuthContext.loginErrorMessage, hm]
    | some m =>
      by_cases h : m = "" <;> simp [AuthContext.loginErrorMessage, hm, h]

theorem apiErrorMessage_ne_empty (f : Api.ApiFailure) :
    Api.apiErrorMessage f ≠ "" := by
  cases hm : f.message with
  | none => simp [Api.apiErrorMessage, hm]
  | some m =>
    by_cases h : m = "" <;> simp [Api.apiErrorMessage, hm, h]

/-- C1 (code bug in the source): the specified invariant — a user record is
present only if the token is present — is violated by a reachable state of
the `AuthProvider` state machine.  After mounting with empty storage, a
successful `login` with payload
`{token: "t1", user: {id: 1, email: "a@b.com", credits: 5, is_admin: false}}`
triggers the token-change profile refresh (`loadUser`); when that
`getCurrentUser("t1")` call fails, the catch clause runs `setToken(null)` but
never `setUser(null)`, so the quiescent state keeps the user record while the
token is gone. -/
theorem profile_refresh_failure_leaves_user_without_token :
    AuthContext.ReachableFrom none none
      (AuthContext.login (AuthContext.initMount none none (Except.error ()))
        (Except.ok ⟨some "t1", ⟨1, "a@b.com", 5, false⟩⟩) (Except.error ())).1 ∧
    (AuthContext.login (AuthContext.initMount none none (Except.error ()))
        (Except.ok ⟨some "t1", ⟨1, "a@b.com", 5, false⟩⟩) (Except.error ())).1.user =
      some ⟨1, "a@b.com", 5, false⟩ ∧
    (AuthContext.login (AuthContext.initMount none none (Except.error ()))
        (Except.ok ⟨some "t1", ⟨1, "a@b.com", 5, false⟩⟩) (Except.error ())).1.token =
      none :=
  ⟨AuthContext.ReachableFrom.login_step _ _ (AuthContext.ReachableFrom.init _),
    rfl, rfl⟩

/-- C2 counterexample: the source `isAdmin` never consults the token, so it
answers `true` on a session state whose token is absent but whose stored user
record has `is_admin: true` — contrary to the claimed
token-present-AND-admin-flag characterization (`isAdminSpec`).  The state is
even produced by the module's own `fetchUserProfile` on a collaborator
success with no token in storage. -/
theorem isAdmin_true_without_token_cex :
    ((AuthTs.fetchUserProfile (Except.ok ⟨1, "a@b.com", 5, true⟩)
        ⟨none, none⟩).1).token = none ∧
    AuthTs.isAdmin
      (AuthTs.fetchUserProfile (Except.ok ⟨1, "a@b.com", 5, true⟩)
        ⟨none, none⟩).1 = true ∧
    isAdminSpec
      (AuthTs.fetchUserProfile (Except.ok ⟨1, "a@b.com", 5, true⟩)
        ⟨none, none⟩).1 = false :=
  ⟨rfl, rfl, rfl⟩

/-- C2 amended: `isAdmin()` returns true exactly when the stored user record
is present with its `is_admin` flag true; the token is not consulted at all
(so the answer is unchanged under any token), and whenever the user record is
absent the answer is `false` (not an error), even if a token is present. -/
theorem isAdmin_iff_user_admin_flag :
    ∀ st : AuthTs.Storage,
      (AuthTs.isAdmin st = true ↔ ∃ u, st.user = some u ∧ u.is_admin = true) ∧
      (st.user = none → AuthTs.isAdmin st = false) ∧
      (∀ tok, AuthTs.isAdmin { st with token := tok } = AuthTs.isAdmin st) := by
  intro st
  refine ⟨?_, ?_, ?_⟩
  · cases hu : st.user with
    | none => simp [AuthTs.isAdmin, AuthTs.getCurrentUser, hu]
    | some u => simp [AuthTs.isAdmin, AuthTs.getCurrentUser, hu]
  · intro hu
    simp [AuthTs.isAdmin, AuthTs.getCurrentUser, hu]
  · intro tok
    simp [AuthTs.isAdmin, AuthTs.getCurrentUser]

/-- C2 witness: the amended theorem applied to a state with a token but no
user record yields `false` (admin gating fails closed). -/
theorem isAdmin_iff_user_admin_flag_witness :
    AuthTs.isAdmin ⟨some "tok1", none⟩ = false :=
  (isAdmin_iff_user_admin_flag ⟨some "tok1", none⟩).2.1 rfl

/-- C3 counterexample: a failure payload whose `message` field is present but
empty.  The claim says the rejection carries the payload's `message` field
when present (rendered by `failureMessageSpec`), but the code's JavaScript
`||` treats the empty string as absent and rejects with the generic fallback
`"Login failed"` instead of the present (empty) message. -/
theorem login_failure_empty_message_cex :
    AuthContext.loginErrorMessage (some ⟨some ""⟩) = "Login failed" ∧
    failureMessageSpec (some ⟨some ""⟩) = "" :=
  ⟨rfl, rfl⟩

/-- C3 amended: for every failure result of the login collaborator, `login`
leaves the prior token, user, persisted token and outbound credential
unchanged and rejects with a non-empty message: the payload's `message` field
when present and non-empty, otherwise a generic fallback (so the rejection
message is always either the payload's message or the fallback).  The same
atomicity and non-emptiness hold on the standalone `loginUser` path, whose
`apiRequest` collaborator rejects with
`error.message || 'Something went wrong'`. -/
theorem login_failure_atomic_nonempty_message :
    ∀ (s : AuthContext.PState) (e : AuthContext.AxiosErr) (r2 : Except Unit User),
      (AuthContext.login s (Except.error e) r2).1.token = s.token ∧
      (AuthContext.login s (Except.error e) r2).1.user = s.user ∧
      (AuthContext.login s (Except.error e) r2).1.storedToken = s.storedToken ∧
      (AuthContext.login s (Except.error e) r2).1.axiosAuth = s.axiosAuth ∧
      (AuthContext.login s (Except.error e) r2).2 =
        Except.error (AuthContext.loginErrorMessage e) ∧
      AuthContext.loginErrorMessage e ≠ "" ∧
      (∀ d m, e = some d → d.message = some m → m ≠ "" →
        AuthContext.loginErrorMessage e = m) ∧
      (AuthContext.loginErrorMessage e = "Login failed" ∨
        ∃ d m, e = some d ∧ d.message = some m ∧
          AuthContext.loginErrorMessage e = m) ∧
      (∀ (f : Api.ApiFailure) (st : AuthTs.Storage),
        (AuthTs.loginUser (Except.error f) st).1 = st ∧
        Api.apiErrorMessage f ≠ "") := by
  intro s e r2
  refine ⟨rfl, rfl, rfl, rfl, rfl, loginErrorMessage_ne_empty e, ?_, ?_, ?_⟩
  · intro d m hd hm hne
    subst hd
    simp [AuthContext.loginErrorMessage, hm, hne]
  · cases e with
    | none => exact Or.inl rfl
    | some d =>
      cases hm : d.message with
      | none => exact Or.inl (by simp [AuthContext.loginErrorMessage, hm])
      | some m =>
        by_cases h : m = ""
        · exact Or.inl (by simp [AuthContext.loginErrorMessage, hm, h])
        · exact Or.inr ⟨d, m, rfl, hm,
            by simp [AuthContext.loginErrorMessage, hm, h]⟩
  · intro f st
    exact ⟨rfl, apiErrorMessage_ne_empty f⟩

/-- C3 witness: the amended theorem applied at the spec's own scenario — a
401 failure with `{message: "Invalid credentials"}` — yields the rejection
message `"Invalid credentials"`. -/
theorem login_failure_atomic_nonempty_message_witness :
    AuthContext.loginErrorMessage (some ⟨some "Invalid credentials"⟩) =
      "Invalid credentials" :=
  (login_failure_atomic_nonempty_message
      ⟨none, none, false, none, none, none, none⟩
      (some ⟨some "Invalid credentials"⟩)
      (Except.error ())).2.2.2.2.2.2.1
    ⟨some "Invalid credentials"⟩ "Invalid credentials" rfl rfl (by decide)

/-- C4 counterexample: a success payload whose `token` field is the empty
string.  `loginUser` completes normally and returns the payload's user, but
`saveUser`'s truthiness guard writes nothing, so durable storage is unchanged
and `isAuthenticated()` is `false` — contrary to the claim's promise for
every success payload. -/
theorem login_empty_token_not_authenticated_cex :
    (AuthTs.loginUser (Except.ok ⟨some "", ⟨1, "a@b.com", 5, false⟩⟩)
        ⟨none, none⟩).2 = Except.ok ⟨1, "a@b.com", 5, false⟩ ∧
    (AuthTs.loginUser (Except.ok ⟨some "", ⟨1, "a@b.com", 5, false⟩⟩)
        ⟨none, none⟩).1 = ⟨none, none⟩ ∧
    AuthTs.isAuthenticated
      (AuthTs.loginUser (Except.ok ⟨some "", ⟨1, "a@b.com", 5, false⟩⟩)
        ⟨none, none⟩).1 = false :=
  ⟨rfl, rfl, rfl⟩

/-- C4 amended: for every success payload whose token is truthy (present and
non-empty), after `loginUser` completes it returns the payload's user,
`isAuthenticated()` is true, the session's user (as read back by
`getCurrentUser`) equals the payload's user, and the token is persisted to
durable storage. -/
theorem login_success_authenticates :
    ∀ (resp : AuthResponse) (st : AuthTs.Storage), truthy resp.token = true →
      (AuthTs.loginUser (Except.ok resp) st).2 = Except.ok resp.user ∧
      AuthTs.isAuthenticated (AuthTs.loginUser (Except.ok resp) st).1 = true ∧
      AuthTs.getCurrentUser (AuthTs.loginUser (Except.ok resp) st).1 =
        some resp.user ∧
      AuthTs.getToken (AuthTs.loginUser (Except.ok resp) st).1 = resp.token := by
  intro resp st h
  refine ⟨rfl, ?_, ?_, ?_⟩ <;>
    simp [AuthTs.loginUser, AuthTs.saveUser, h, AuthTs.isAuthenticated,
      AuthTs.getToken, AuthTs.getCurrentUser]

/-- C4 witness: the amended theorem at the concrete payload
`{token: "tok1", user: {id: 1, email: "a@b.com", credits: 5, is_admin: false}}`
from empty storage. -/
theorem login_success_authenticates_witness :
    AuthTs.isAuthenticated
      (AuthTs.loginUser (Except.ok ⟨some "tok1", ⟨1, "a@b.com", 5, false⟩⟩)
        ⟨none, none⟩).1 = true ∧
    AuthTs.getCurrentUser
      (AuthTs.loginUser (Except.ok ⟨some "tok1", ⟨1, "a@b.com", 5, false⟩⟩)
        ⟨none, none⟩).1 = some ⟨1, "a@b.com", 5, false⟩ :=
  ⟨(login_success_authenticates ⟨some "tok1", ⟨1, "a@b.com", 5, false⟩⟩
      ⟨none, none⟩ (by decide)).2.1,
    (login_success_authenticates ⟨some "tok1", ⟨1, "a@b.com", 5, false⟩⟩
      ⟨none, none⟩ (by decide)).2.2.1⟩

/-- C5: restoring a session with a stored token that the profile collaborator
rejects ends in a fully logged-out quiescent state: the token is not truthy,
the user is absent, the persisted token and the outbound credential are
removed, and loading has ended — with no thrown error (the catch clause
absorbs the failure, so `initMount` is total) and no retry (a further
`loadUser` pass on the resulting state ignores the collaborator entirely).
The standalone module's `fetchUserProfile` likewise degrades any collaborator
failure to a logout, returning `none` instead of re-throwing. -/
theorem restore_rejected_token_logs_out :
    ∀ (t : String) (su0 : Option User),
      truthy (AuthContext.initMount (some t) su0 (Except.error ())).token =
        false ∧
      (AuthContext.initMount (some t) su0 (Except.error ())).user = none ∧
      (AuthContext.initMount (some t) su0 (Except.error ())).storedToken =
        none ∧
      (AuthContext.initMount (some t) su0 (Except.error ())).axiosAuth = none ∧
      (AuthContext.initMount (some t) su0 (Except.error ())).loading = false ∧
      (∀ r r' : Except Unit User,
        AuthContext.loadUser
          (AuthContext.initMount (some t) su0 (Except.error ())) r =
        AuthContext.loadUser
          (AuthContext.initMount (some t) su0 (Except.error ())) r') ∧
      (∀ (st : AuthTs.Storage) (f : Api.ApiFailure),
        AuthTs.fetchUserProfile (Except.error f) st = (⟨none, none⟩, none)) := by
  intro t su0
  by_cases h : t = ""
  · subst h
    exact ⟨rfl, rfl, rfl, rfl, rfl, fun r r' => rfl, fun st f => rfl⟩
  · have e1 : AuthContext.initMount (some t) su0 (Except.error ()) =
        ⟨none, none, false, none, none, none, su0⟩ := by
      simp [AuthContext.initMount, AuthContext.effect1, AuthContext.loadUser, h]
    rw [e1]
    exact ⟨rfl, rfl, rfl, rfl, rfl, fun r r' => rfl, fun st f => rfl⟩

/-- C6 counterexample: the standalone module's `saveUser` does persist the
user profile verbatim: on a success payload it writes the `'user'` key, and
`getCurrentUser` reads it back from durable storage with no collaborator
involved — contrary to the claim that the session occupies exactly one
durable key and the profile is never persisted. -/
theorem saveUser_persists_user_profile_cex :
    (AuthTs.saveUser ⟨some "t1", ⟨1, "a@b.com", 5, false⟩⟩ ⟨none, none⟩).user =
      some ⟨1, "a@b.com", 5, false⟩ ∧
    AuthTs.getCurrentUser
      (AuthTs.saveUser ⟨some "t1", ⟨1, "a@b.com", 5, false⟩⟩ ⟨none, none⟩) =
      some ⟨1, "a@b.com", 5, false⟩ :=
  ⟨rfl, rfl⟩

/-- C6 amended: the context-based session manager does satisfy the claim — in
every reachable provider state the persisted `'user'` cell is exactly what it
was at mount (the provider never writes or removes it), and on restore the
profile comes from the profile-fetch collaborator's response; the standalone
auth.ts module, however, additionally persists the profile under the `'user'`
key (see the counterexample). -/
theorem canonical_manager_persists_only_token :
    (∀ (st0 : Option String) (su0 : Option User) (s : AuthContext.PState),
        AuthContext.ReachableFrom st0 su0 s → s.storedUser = su0) ∧
    (∀ (t : String) (su0 : Option User) (u : User), t ≠ "" →
        (AuthContext.initMount (some t) su0 (Except.ok u)).user = some u) := by
  constructor
  · intro st0 su0 s h
    exact storedUser_of_reachable h
  · intro t su0 u h
    simp [AuthContext.initMount, AuthContext.effect1, AuthContext.loadUser, h]

/-- C6 witness: mounting with stored token `"tok1"`, no stored user, and a
collaborator success leaves the `'user'` cell empty while the in-memory user
is the fetched record. -/
theorem canonical_manager_persists_only_token_witness :
    (AuthContext.initMount (some "tok1") none
        (Except.ok ⟨1, "a@b.com", 5, false⟩)).storedUser = none ∧
    (AuthContext.initMount (some "tok1") none
        (Except.ok ⟨1, "a@b.com", 5, false⟩)).user =
      some ⟨1, "a@b.com", 5, false⟩ :=
  ⟨canonical_manager_persists_only_token.1 (some "tok1") none _
      (AuthContext.ReachableFrom.init _),
    canonical_manager_persists_only_token.2 "tok1" none
      ⟨1, "a@b.com", 5, false⟩ (by decide)⟩

/-- C7: in every reachable provider state the outbound default credential
tracks the current token — the axios default Authorization header is `Bearer
<token>` exactly when the token is truthy and absent otherwise, the persisted
token agrees, and therefore the header that the fetch-based `apiRequest`
builds from the persisted token is exactly the current token's bearer header,
so every subsequent authenticated call automatically carries the current
token (or none) without the caller attaching it. -/
theorem outbound_credential_tracks_token :
    ∀ (st0 : Option String) (su0 : Option User) (s : AuthContext.PState),
      AuthContext.ReachableFrom st0 su0 s →
      s.axiosAuth = bearerOf s.token ∧
      s.storedToken = normTok s.token ∧
      Api.apiRequestAuth s.storedToken = bearerOf s.token := by
  intro st0 su0 s h
  obtain ⟨h1, h2⟩ := synced_of_reachable h
  refine ⟨h1, h2, ?_⟩
  rw [h2]
  cases ht : s.token with
  | none => rfl
  | some t =>
    by_cases he : t = "" <;> simp [normTok, Api.apiRequestAuth, bearerOf, he]

/-- C7 witness: the invariant at the reachable state produced by mounting
with stored token `"tok1"` and a successful profile fetch. -/
theorem outbound_credential_tracks_token_witness :
    (AuthContext.initMount (some "tok1") none
        (Except.ok ⟨1, "a@b.com", 5, false⟩)).axiosAuth =
      bearerOf (AuthContext.initMount (some "tok1") none
        (Except.ok ⟨1, "a@b.com", 5, false⟩)).token ∧
    (AuthContext.initMount (some "tok1") none
        (Except.ok ⟨1, "a@b.com", 5, false⟩)).storedToken =
      normTok (AuthContext.initMount (some "tok1") none
        (Except.ok ⟨1, "a@b.com", 5, false⟩)).token ∧
    Api.apiRequestAuth (AuthContext.initMount (some "tok1") none
        (Except.ok ⟨1, "a@b.com", 5, false⟩)).storedToken =
      bearerOf (AuthContext.initMount (some "tok1") none
        (Except.ok ⟨1, "a@b.com", 5, false⟩)).token :=
  outbound_credential_tracks_token (some "tok1") none _
    (AuthContext.ReachableFrom.init _)

/-- C8: logout is total (modelled as a total function: it cannot fail) and
unconditional.  On the standalone module, from any storage state and with or
without an injected navigate callback, `logout` leaves `isAuthenticated()`
false, removes both the token and the user from durable storage, and directs
navigation to `/login`; on the provider, `logout` clears the in-memory token
and user and removes the persisted token from any state. -/
theorem logout_clears_session :
    (∀ (st : AuthTs.Storage) (hasNav : Bool),
      AuthTs.isAuthenticated (AuthTs.logout st hasNav).1 = false ∧
      (AuthTs.logout st hasNav).1.token = none ∧
      (AuthTs.logout st hasNav).1.user = none ∧
      AuthTs.getCurrentUser (AuthTs.logout st hasNav).1 = none ∧
      (AuthTs.logout st hasNav).2 = "/login") ∧
    (∀ s : AuthContext.PState,
      (AuthContext.logout s).token = none ∧
      (AuthContext.logout s).user = none ∧
      (AuthContext.logout s).storedToken = none) := by
  constructor
  · intro st hasNav
    refine ⟨rfl, rfl, rfl, rfl, ?_⟩
    cases hasNav <;> rfl
  · intro s
    unfold AuthContext.logout
    by_cases h : s.token = none <;> simp [h, AuthContext.effect1]

/-- C9: for every auth response whose token field is absent, empty, or
otherwise falsy, `saveUser` leaves durable storage completely unchanged
(neither the `'token'` key nor the `'user'` key is written), while
`loginUser` and `registerUser` still complete and hand the response's user
record back to the caller. -/
theorem falsy_token_response_writes_nothing :
    ∀ (resp : AuthResponse) (st : AuthTs.Storage), truthy resp.token = false →
      AuthTs.saveUser resp st = st ∧
      AuthTs.loginUser (Except.ok resp) st = (st, Except.ok resp.user) ∧
      AuthTs.registerUser (Except.ok resp) st = (st, Except.ok resp.user) := by
  intro resp st h
  have hs : AuthTs.saveUser resp st = st := by simp [AuthTs.saveUser, h]
  exact ⟨hs, by simp [AuthTs.loginUser, hs], by simp [AuthTs.registerUser, hs]⟩

/-- C9 witness: a response with the empty-string token against a non-empty
prior storage — nothing is written and the user record is still returned. -/
theorem falsy_token_response_writes_nothing_witness :
    AuthTs.saveUser ⟨some "", ⟨1, "a@b.com", 5, false⟩⟩
        ⟨some "old", some ⟨2, "c@d.com", 3, true⟩⟩ =
      ⟨some "old", some ⟨2, "c@d.com", 3, true⟩⟩ ∧
    AuthTs.loginUser (Except.ok ⟨some "", ⟨1, "a@b.com", 5, false⟩⟩)
        ⟨some "old", some ⟨2, "c@d.com", 3, true⟩⟩ =
      (⟨some "old", some ⟨2, "c@d.com", 3, true⟩⟩,
        Except.ok ⟨1, "a@b.com", 5, false⟩) :=
  ⟨(falsy_token_response_writes_nothing ⟨some "", ⟨1, "a@b.com", 5, false⟩⟩
      ⟨some "old", some ⟨2, "c@d.com", 3, true⟩⟩ (by decide)).1,
    (falsy_token_response_writes_nothing ⟨some "", ⟨1, "a@b.com", 5, false⟩⟩
      ⟨some "old", some ⟨2, "c@d.com", 3, true⟩⟩ (by decide)).2.1⟩

/-- C10: `useAuth` consumed outside any `AuthProvider` sees the context's
default value `undefined` and throws
`'useAuth must be used within an AuthProvider'`; it never yields a default
session (inside a provider it returns exactly the provider's value). -/
theorem useAuth_outside_provider_throws :
    AuthContext.useAuth none =
      Except.error "useAuth must be used within an AuthProvider" ∧
    (∀ c, AuthContext.useAuth (some c) = Except.ok c) :=
  ⟨rfl, fun _ => rfl⟩
